import Mathlib

/-!
Shallow embedding of `src/index.js` of react-native-map-link.

The source is a single module exporting `isAppInstalled`, `askAppChoice`
and `showLocation`, over a static registry (`apps`, `prefixes`, `titles`).
JavaScript values that can reach the validated options object are modelled
by `JSValue`; JavaScript numbers by `JSNumber` (a NaN sentinel or a finite
decimal `m / 10^e`; the concrete coordinates in this development are all
decimal).  The platform flag `Platform.OS === 'ios'` is threaded as an
explicit `isIOS : Bool`.  The asynchronous capabilities are injected:
`Linking.canOpenURL` as a function `String → ProbeOutcome` (the probe for a
given URL either resolves a value or rejects), and the user's reaction to a
choice prompt as a `UserChoice`.
-/

namespace MapLink

/-- A JavaScript number: NaN, or the finite decimal `m / 10 ^ e`. -/
inductive JSNumber where
  | nan : JSNumber
  | finite (m : Int) (e : Nat) : JSNumber
  deriving DecidableEq, Repr

/-- The JavaScript values the embedding needs for the fields of the
options object: primitives; objects and arrays never reach the
interesting paths of the source. -/
inductive JSValue where
  | undefined : JSValue
  | null : JSValue
  | bool (b : Bool) : JSValue
  | number (n : JSNumber) : JSValue
  | str (s : String) : JSValue
  deriving DecidableEq, Repr

/-- JavaScript truthiness of a `JSValue` (`!!v`).  `finite m e` is the
number `m / 10 ^ e`, which is falsy exactly when `m = 0`. -/
def truthy : JSValue → Bool
  | .undefined => false
  | .null => false
  | .bool b => b
  | .number .nan => false
  | .number (.finite m _) => m != 0
  | .str s => s != ""

/-- The JavaScript `typeof` operator on the modelled values. -/
def typeofJS : JSValue → String
  | .undefined => "undefined"
  | .null => "object"
  | .bool _ => "boolean"
  | .number _ => "number"
  | .str _ => "string"

/-- `apps` (src/index.js:18-29): the ten registered provider ids, in
declaration order. -/
def apps : List String :=
  ["apple-maps", "google-maps", "citymapper", "uber", "lyft",
   "navigon", "transit", "waze", "yandex", "moovit"]

/-- `prefixes` (src/index.js:31-42): the URL-scheme table, keyed by
provider id; `none` models the absence of the key (JS `undefined`).
`isIOS` is the `Platform.OS === 'ios'` flag, resolved per key exactly as
the object literal does. -/
def prefixes (isIOS : Bool) (app : String) : Option String :=
  if app = "apple-maps" then some (if isIOS then "http://maps.apple.com/" else "applemaps://")
  else if app = "google-maps" then some (if isIOS then "comgooglemaps://" else "https://maps.google.com/")
  else if app = "citymapper" then some "citymapper://"
  else if app = "uber" then some "uber://"
  else if app = "lyft" then some "lyft://"
  else if app = "navigon" then some "navigon://"
  else if app = "transit" then some "transit://"
  else if app = "waze" then some "waze://"
  else if app = "yandex" then some "yandexnavi://"
  else if app = "moovit" then some "moovit://"
  else none

/-- `titles` (src/index.js:44-55): display titles keyed by provider id. -/
def titles (app : String) : Option String :=
  if app = "apple-maps" then some "Apple Maps"
  else if app = "google-maps" then some "Google Maps"
  else if app = "citymapper" then some "Citymapper"
  else if app = "uber" then some "Uber"
  else if app = "lyft" then some "Lyft"
  else if app = "navigon" then some "Navigon"
  else if app = "transit" then some "The Transit App"
  else if app = "waze" then some "Waze"
  else if app = "yandex" then some "Yandex.Navi"
  else if app = "moovit" then some "Moovit"
  else none

/-- The key order of the `prefixes` object literal, which is the order a
JavaScript `for..in` loop visits its (string, non-index) keys. -/
def prefixesKeys : List String := apps

/-- Behaviour of one `Linking.canOpenURL(url)` call: the promise resolves
with some value, or rejects. -/
inductive ProbeOutcome where
  | resolves (v : JSValue) : ProbeOutcome
  | rejects : ProbeOutcome
  deriving DecidableEq, Repr

/-- `isAppInstalled` (src/index.js:63-75).  The returned promise never
rejects; this total function is its resolved value.  An id with no entry
in `prefixes` resolves `false`; a probe that resolves `result` yields
`!!result`; a probe that rejects is caught and resolves `false`. -/
def isAppInstalled (isIOS : Bool) (probe : String → ProbeOutcome) (app : String) : Bool :=
  match prefixes isIOS app with
  | none => false
  | some p =>
    match probe p with
    | .resolves v => truthy v
    | .rejects => false

/-- The user's reaction to a choice prompt: tapping button `k` (in the
options array, the trailing Cancel button included), or dismissing the
dialog (Android: tapping outside; iOS: the action sheet reports the
cancel button index). -/
inductive UserChoice where
  | select (k : Nat) : UserChoice
  | dismiss : UserChoice
  deriving DecidableEq, Repr

/-- The observable outcome of `askAppChoice`: either it resolved without
presenting any UI, or it presented a prompt with the given option labels
and resolved after the user's reaction.  The resolved value is an
`Option String` (a provider id, or `null`). -/
inductive ChoiceOutcome where
  | noUI (result : Option String) : ChoiceOutcome
  | ui (options : List String) (result : Option String) : ChoiceOutcome
  deriving DecidableEq, Repr

/-- The resolved value of a `ChoiceOutcome`. -/
def ChoiceOutcome.result : ChoiceOutcome → Option String
  | .noUI r => r
  | .ui _ r => r

/-- JavaScript `x || null` on an optional string (`availableApps[0] || null`,
src/index.js:93): an absent index (`undefined`) and an empty string are
both falsy and give `null`. -/
def jsOrNull : Option String → Option String
  | some s => if s = "" then none else some s
  | none => none

/-- The `availableApps` array built by `askAppChoice`
(src/index.js:85-91): the keys of `prefixes` in insertion order, filtered
by `isAppInstalled`, order preserved. -/
def availableApps (isIOS : Bool) (probe : String → ProbeOutcome) : List String :=
  prefixesKeys.filter (fun app => isAppInstalled isIOS probe app)

/-- `askAppChoice` (src/index.js:83-119).  With fewer than two available
apps it resolves `availableApps[0] || null` with no UI.  Otherwise the
options are the available apps' titles plus a trailing Cancel (every
registered app has a title, so the `getD` default is never reached), and
the resolution is driven by the user's reaction: on iOS the action sheet
callback receives the cancel index on dismissal; on Android each app
button resolves its app, the Cancel button and `onDismiss` resolve
`null`. -/
def askAppChoice (isIOS : Bool) (probe : String → ProbeOutcome)
    (resp : UserChoice) : ChoiceOutcome :=
  let avail := availableApps isIOS probe
  if avail.length < 2 then
    .noUI (jsOrNull avail[0]?)
  else
    let options := avail.map (fun app => (titles app).getD "undefined") ++ ["Cancel"]
    if isIOS then
      let buttonIndex := match resp with
        | .select k => k
        | .dismiss => options.length - 1
      if buttonIndex = options.length - 1 then .ui options none
      else .ui options avail[buttonIndex]?
    else
      match resp with
      | .select k =>
        if k = options.length - 1 then .ui options none
        else .ui options avail[k]?
      | .dismiss => .ui options none

/-- Strip factors of ten shared by the mantissa and the exponent, so that
`finite m e` renders without trailing fractional zeros (JavaScript prints
the shortest decimal form). -/
def stripZeros : Int → Nat → Int × Nat
  | m, 0 => (m, 0)
  | m, e + 1 => if m % 10 = 0 then stripZeros (m / 10) e else (m, e + 1)

/-- Left-pad a digit string with zeros to length `n`. -/
def padZeros (s : String) (n : Nat) : String :=
  String.mk (List.replicate (n - s.length) (Char.ofNat 48)) ++ s

/-- Rendering of a `JSNumber` by string concatenation (JavaScript
`Number.prototype.toString`): `NaN` prints `"NaN"`; a finite decimal
prints in plain positional notation with no trailing fractional zeros
(the exponent-notation thresholds of very large or small doubles are not
modelled; the development only renders plain decimals). -/
def jsNumToString (n : JSNumber) : String :=
  match n with
  | .nan => "NaN"
  | .finite m e =>
    let p := stripZeros m e
    if p.2 = 0 then toString p.1
    else
      let a := p.1.natAbs
      let sign := if p.1 < 0 then "-" else ""
      sign ++ toString (a / 10 ^ p.2) ++ "." ++ padZeros (toString (a % 10 ^ p.2)) p.2

/-- Numeric value of a list of decimal digit characters. -/
def digitsVal (ds : List Char) : Nat :=
  ds.foldl (fun acc c => 10 * acc + (c.toNat - 48)) 0

/-- JavaScript `parseFloat` on a string: skip leading whitespace, an
optional sign, then decimal digits with at most one point; no digit at
all gives NaN.  (The exponent and Infinity forms of full `parseFloat`
are not modelled; no input in this development uses them.) -/
def parseFloatString (s : String) : JSNumber :=
  let ws : Char → Bool := fun c =>
    c.toNat = 32 || c.toNat = 9 || c.toNat = 10 || c.toNat = 13
  let cs := s.toList.dropWhile ws
  let signed : Bool × List Char :=
    match cs with
    | c :: rest =>
      if c = Char.ofNat 45 then (true, rest)
      else if c = Char.ofNat 43 then (false, rest)
      else (false, cs)
    | [] => (false, [])
  let ip := signed.2.takeWhile Char.isDigit
  let rest := signed.2.dropWhile Char.isDigit
  let fp : List Char :=
    match rest with
    | c :: rest2 => if c = Char.ofNat 46 then rest2.takeWhile Char.isDigit else []
    | [] => []
  if ip.isEmpty && fp.isEmpty then .nan
  else
    let mag : Int := (digitsVal (ip ++ fp) : Int)
    .finite (if signed.1 then -mag else mag) fp.length

/-- JavaScript `parseFloat` on a `JSValue`: a number parses to itself (a
finite decimal round-trips through its string form); a string is parsed;
`undefined`, `null` and booleans stringify to words that start with no
digit and parse to NaN. -/
def parseFloat : JSValue → JSNumber
  | .number n => n
  | .str s => parseFloatString s
  | _ => .nan

/-- The uppercase hexadecimal digit for `n < 16`. -/
def hexDigit (n : Nat) : Char :=
  if n < 10 then Char.ofNat (48 + n) else Char.ofNat (55 + n)

/-- `"%XX"` for one byte, uppercase hexadecimal. -/
def byteHex (b : UInt8) : String :=
  String.mk [Char.ofNat 37, hexDigit (b.toNat / 16), hexDigit (b.toNat % 16)]

/-- The characters `encodeURIComponent` leaves intact: ASCII letters,
digits, and `- _ . ! ~ * ( )` together with the apostrophe (codes 45, 95,
46, 33, 126, 42, 40, 41, 39). -/
def isUnreserved (c : Char) : Bool :=
  (65 ≤ c.toNat && c.toNat ≤ 90) || (97 ≤ c.toNat && c.toNat ≤ 122) ||
  (48 ≤ c.toNat && c.toNat ≤ 57) ||
  c.toNat = 45 || c.toNat = 95 || c.toNat = 46 || c.toNat = 33 ||
  c.toNat = 126 || c.toNat = 42 || c.toNat = 39 || c.toNat = 40 || c.toNat = 41

/-- JavaScript `encodeURIComponent`: unreserved characters pass through,
every other character is replaced by the percent-encoding of its UTF-8
bytes. -/
def encodeURIComponent (s : String) : String :=
  s.toList.foldl (fun acc c =>
    if isUnreserved c then acc.push c
    else acc ++ String.join (((String.mk [c]).toUTF8.toList).map byteHex)) ""

/-- Whether `sub` is an initial segment of the second list. -/
def listStartsWith : List Char → List Char → Bool
  | [], _ => true
  | _ :: _, [] => false
  | c :: cs, d :: ds => c == d && listStartsWith cs ds

/-- Whether `sub` occurs contiguously somewhere in the second list. -/
def listContainsSub (sub : List Char) : List Char → Bool
  | [] => listStartsWith sub []
  | d :: ds => listStartsWith sub (d :: ds) || listContainsSub sub ds

/-- Whether the string `sub` occurs contiguously in `s` (used to state
that a URL carries the literal text `NaN`). -/
def strContainsSub (s sub : String) : Bool :=
  listContainsSub sub.toList s.toList

/-- The options object passed to `showLocation`: each field is `some v`
when the key is present with value `v` and `none` when absent, so the
JavaScript `key in options` test is `≠ none` and reading an absent field
gives `undefined`. -/
structure Options where
  latitude : Option JSValue := none
  longitude : Option JSValue := none
  title : Option JSValue := none
  address : Option JSValue := none
  app : Option JSValue := none
  deriving DecidableEq, Repr

/-- `Array.prototype.indexOf` over a list of strings with a `JSValue`
argument: strict equality, so a non-string never matches; `-1` when
absent. -/
def strIndexOf (l : List String) (s : String) : Int :=
  match l with
  | [] => -1
  | x :: xs =>
    if x = s then 0
    else
      let r := strIndexOf xs s
      if r < 0 then -1 else r + 1

/-- `apps.indexOf(options.app)` (src/index.js:144) for a `JSValue`. -/
def jsIndexOf (l : List String) (v : JSValue) : Int :=
  match v with
  | .str s => strIndexOf l s
  | _ => -1

/-- The check `key in options && options.key && typeof options.key !==
'string'` used for `address` and `title` (src/index.js:138-143): `true`
means the validation error fires. -/
def badStringField (f : Option JSValue) : Bool :=
  match f with
  | some v => truthy v && (typeofJS v != "string")
  | none => false

/-- The check `'app' in options && options.app && apps.indexOf(options.app)
< 0` (src/index.js:144): `true` means the validation error fires. -/
def badAppField (f : Option JSValue) : Bool :=
  match f with
  | some v => truthy v && decide (jsIndexOf apps v < 0)
  | none => false

/-- Normalization `options.f && options.f.length ? options.f : null`
(src/index.js:150-152): a non-empty string passes through, everything
else (falsy values, and truthy non-strings, whose `.length` is
`undefined`) becomes `null`. -/
def normalizeField : JSValue → Option String
  | .str s => if s = "" then none else some s
  | _ => none

/-- `normalizeField` applied to a possibly absent key. -/
def normalizeOpt (f : Option JSValue) : Option String :=
  normalizeField (f.getD .undefined)

/-- The `switch (app)` URL formatting of `showLocation`
(src/index.js:158-202): `url` starts `null` and a matching case builds
the provider's deep link; `navigon` and `null` match no case.  `lat` and
`lng` are concatenated through `jsNumToString`, free text through
`encodeURIComponent`.  The `uber` and `moovit` templates lack the `=`
after `dropoff[longitude]` and `dest_lon`, exactly as the source
does. -/
def formatUrl (isIOS : Bool) (app : Option String) (lat lng : JSNumber)
    (title address : Option String) : Option String :=
  match app with
  | none => none
  | some a =>
    if a = "apple-maps" then
      some ((prefixes isIOS "apple-maps").getD "" ++ "?ll=" ++ jsNumToString lat ++ "," ++
        jsNumToString lng ++ "&q=" ++ encodeURIComponent (title.getD "Location") ++
        "&address=" ++ encodeURIComponent (address.getD ""))
    else if a = "google-maps" then
      some ((prefixes isIOS "google-maps").getD "" ++
        (if isIOS then
          "?api=1&ll=" ++ jsNumToString lat ++ "," ++ jsNumToString lng ++ "&q=" ++
            encodeURIComponent ((address <|> title).getD "Location")
        else "?q=" ++ jsNumToString lat ++ "," ++ jsNumToString lng))
    else if a = "citymapper" then
      some ((prefixes isIOS "citymapper").getD "" ++ "directions?endcoord=" ++
        jsNumToString lat ++ "," ++ jsNumToString lng ++
        (match title with
         | some t => "&endname=" ++ encodeURIComponent t
         | none => ""))
    else if a = "uber" then
      some ((prefixes isIOS "uber").getD "" ++
        "?action=setPickup&pickup=my_location&dropoff[latitude]=" ++ jsNumToString lat ++
        "&dropoff[longitude]" ++ jsNumToString lng ++
        (match title with
         | some t => "&dropoff[nickname]=" ++ encodeURIComponent t
         | none => ""))
    else if a = "lyft" then
      some ((prefixes isIOS "lyft").getD "" ++ "ridetype?id=lyft&destination[latitude]=" ++
        jsNumToString lat ++ "&destination[longitude]=" ++ jsNumToString lng)
    else if a = "transit" then
      some ((prefixes isIOS "transit").getD "" ++ "directions?to=" ++
        jsNumToString lat ++ "," ++ jsNumToString lng)
    else if a = "waze" then
      some ((prefixes isIOS "waze").getD "" ++ "?ll=" ++ jsNumToString lat ++ "," ++
        jsNumToString lng ++ "&navigate=yes")
    else if a = "yandex" then
      some ((prefixes isIOS "yandex").getD "" ++ "build_route_on_map?lat_to=" ++
        jsNumToString lat ++ "&lon_to=" ++ jsNumToString lng)
    else if a = "moovit" then
      some ((prefixes isIOS "moovit").getD "" ++ "directions?dest_lat=" ++
        jsNumToString lat ++ "&dest_lon" ++ jsNumToString lng ++
        (match title with
         | some t => "&dest_name=" ++ encodeURIComponent t
         | none => ""))
    else none

/-- What a `showLocation` call does: throw a `MapsException` with the
given message (synchronously, before any asynchronous step), resolve
after calling `Linking.openURL(url)`, or resolve with no value and no
launch (`url` stayed `null`). -/
inductive ShowLocationResult where
  | err (msg : String) : ShowLocationResult
  | launch (url : String) : ShowLocationResult
  | noop : ShowLocationResult
  deriving DecidableEq, Repr

/-- The message of the `MapsException` thrown when `latitude` or
`longitude` is missing (src/index.js:136). -/
def msgMissingLatLng : String :=
  "First parameter of `showLocation` should contain object with at least keys `latitude` and `longitude`."

/-- The message of the `MapsException` thrown for a truthy non-string
`address` (src/index.js:139). -/
def msgBadAddress : String := "Option `address` should be of type `string`."

/-- The message of the `MapsException` thrown for a truthy non-string
`title` (src/index.js:142). -/
def msgBadTitle : String := "Option `title` should be of type `string`."

/-- The message of the `MapsException` thrown for a truthy unregistered
`app` (src/index.js:145), with `apps.join` inlined. -/
def msgBadApp : String :=
  "Option `app` should be undefined, null, or one of the following: \"" ++
    String.intercalate "\", \"" apps ++ "\"."

/-- `showLocation` (src/index.js:131-207) on an options object (the
`typeof options !== 'object'` guard of line 132 precedes this model: an
`Options` value is an object).  The injected `probe` and `resp` drive
`askAppChoice`, reached only when no valid `app` option was supplied.
Validation runs first, in source order, and throws synchronously; then
coordinates go through `parseFloat`, the optional fields are normalized,
the URL is formatted and, when non-null, launched. -/
def showLocation (isIOS : Bool) (o : Options) (probe : String → ProbeOutcome)
    (resp : UserChoice) : ShowLocationResult :=
  if o.latitude = none ∨ o.longitude = none then
    .err msgMissingLatLng
  else if badStringField o.address then
    .err msgBadAddress
  else if badStringField o.title then
    .err msgBadTitle
  else if badAppField o.app then
    .err msgBadApp
  else
    let lat := parseFloat (o.latitude.getD .undefined)
    let lng := parseFloat (o.longitude.getD .undefined)
    let address := normalizeOpt o.address
    let title := normalizeOpt o.title
    let app : Option String :=
      match normalizeOpt o.app with
      | some a => some a
      | none => (askAppChoice isIOS probe resp).result
    match formatUrl isIOS app lat lng title address with
    | some url => .launch url
    | none => .noop

/-! ### Supporting lemmas -/

/-- `indexOf` of a string absent from the list is `-1`. -/
theorem strIndexOf_of_not_mem {s : String} :
    ∀ {l : List String}, s ∉ l → strIndexOf l s = -1 := by
  intro l
  induction l with
  | nil => intro _; rfl
  | cons x xs ih =>
    intro h
    have hx : ¬ x = s := fun hxs => h (hxs ▸ List.mem_cons_self x xs)
    have hxs : s ∉ xs := fun hm => h (List.mem_cons_of_mem x hm)
    simp [strIndexOf, hx, ih hxs]

/-- A string value never trips the `typeof !== 'string'` validation. -/
theorem badStringField_str (s : String) : badStringField (some (.str s)) = false := by
  simp [badStringField, typeofJS]

/-- An absent key never trips the `key in options` validations. -/
theorem badStringField_none : badStringField none = false := rfl

/-- An absent key normalizes to `null`. -/
theorem normalizeOpt_none : normalizeOpt none = none := rfl

/-- A falsy value short-circuits the `options.key &&` guard, so the
type validation of `title`/`address` does not fire. -/
theorem badStringField_of_falsy {v : JSValue} (h : truthy v = false) :
    badStringField (some v) = false := by
  simp [badStringField, h]

/-- A falsy value normalizes to `null`. -/
theorem normalizeField_of_falsy {v : JSValue} (h : truthy v = false) :
    normalizeField v = none := by
  cases v with
  | str s =>
    have hs : s = "" := by simpa [truthy] using h
    simp [normalizeField, hs]
  | _ => rfl

/-- `NaN` renders as the literal text `NaN`. -/
theorem jsNumToString_nan : jsNumToString JSNumber.nan = "NaN" := rfl

/-- Every registered provider id is a non-empty string. -/
theorem mem_apps_ne_empty (x : String) (h : x ∈ apps) : x ≠ "" := by
  have hall : ∀ y ∈ apps, y ≠ "" := by decide
  exact hall x h

/-- `indexOf` of a member of the list is non-negative. -/
theorem strIndexOf_nonneg {s : String} :
    ∀ {l : List String}, s ∈ l → 0 ≤ strIndexOf l s := by
  intro l
  induction l with
  | nil => intro h; cases h
  | cons x xs ih =>
    intro h
    by_cases hx : x = s
    · simp [strIndexOf, hx]
    · have hm : s ∈ xs := by
        rcases List.mem_cons.mp h with h1 | h1
        · exact absurd h1.symm hx
        · exact h1
      have hr := ih hm
      have hc : ¬ strIndexOf xs s < 0 := by omega
      simp only [strIndexOf, hx, if_false, hc, ite_false]
      omega

/-- A registered id passes the `app` validation. -/
theorem badAppField_registered {ap : String} (h : ap ∈ apps) :
    badAppField (some (.str ap)) = false := by
  have h0 : 0 ≤ strIndexOf apps ap := strIndexOf_nonneg h
  have hc : ¬ jsIndexOf apps (.str ap) < 0 := by
    simp only [jsIndexOf]; omega
  simp [badAppField, hc]

/-- A list starts with itself, whatever follows. -/
theorem listStartsWith_self_append (l r : List Char) :
    listStartsWith l (l ++ r) = true := by
  induction l with
  | nil => rfl
  | cons c cs ih => simp [listStartsWith, ih]

/-- A list that starts with `sub` contains `sub`. -/
theorem listContainsSub_head (sub r : List Char) :
    listContainsSub sub (sub ++ r) = true := by
  cases sub with
  | nil => cases r <;> rfl
  | cons c cs =>
    have h : listStartsWith (c :: cs) (c :: (cs ++ r)) = true := by
      show listStartsWith (c :: cs) ((c :: cs) ++ r) = true
      exact listStartsWith_self_append _ _
    simp [listContainsSub, h]

/-- Containment survives prepending. -/
theorem listContainsSub_skip (sub x l : List Char)
    (h : listContainsSub sub l = true) : listContainsSub sub (x ++ l) = true := by
  induction x with
  | nil => exact h
  | cons c cs ih => simp [listContainsSub, ih]

/-- A string of the form `sub ++ y` contains `sub`. -/
theorem strContainsSub_head (sub y : String) : strContainsSub (sub ++ y) sub = true := by
  show listContainsSub sub.toList ((sub ++ y).toList) = true
  have he : (sub ++ y).toList = sub.toList ++ y.toList := rfl
  exact he ▸ listContainsSub_head sub.toList y.toList

/-- A string containing `sub` still contains it after prepending. -/
theorem strContainsSub_skip (x s sub : String)
    (h : strContainsSub s sub = true) : strContainsSub (x ++ s) sub = true := by
  show listContainsSub sub.toList ((x ++ s).toList) = true
  have he : (x ++ s).toList = x.toList ++ s.toList := rfl
  exact he ▸ listContainsSub_skip sub.toList x.toList s.toList h

/-- A truthy `app` value that is no registered id trips the `app`
validation. -/
theorem badAppField_of_unregistered {v : JSValue} (htr : truthy v = true)
    (hreg : ∀ s, v = JSValue.str s → s ∉ apps) :
    badAppField (some v) = true := by
  cases v with
  | str s =>
    simp [badAppField, jsIndexOf, htr, strIndexOf_of_not_mem (hreg s rfl)]
  | _ => simp_all [badAppField, jsIndexOf, truthy]

/-! ### The claims -/

/-- C5: `showLocation` on `{latitude: 40.7, longitude: -74, app: 'waze'}`
launches exactly `waze://?ll=40.7,-74&navigate=yes`, on either platform
and whatever the injected probe and prompt reaction do (they are never
consulted). -/
theorem showLocation_waze_url (isIOS : Bool) (probe : String → ProbeOutcome)
    (resp : UserChoice) :
    showLocation isIOS
      { latitude := some (.number (.finite 407 1)),
        longitude := some (.number (.finite (-74) 0)),
        app := some (.str "waze") } probe resp =
      .launch "waze://?ll=40.7,-74&navigate=yes" := by
  cases isIOS <;> rfl

/-- C2: `isAppInstalled` always resolves a boolean: an id missing from
`prefixes` resolves `false`, a rejecting probe is caught and resolves
`false`, and a probe resolving `v` resolves `!!v`; no branch rejects. -/
theorem isAppInstalled_never_rejects (isIOS : Bool) (probe : String → ProbeOutcome)
    (app : String) :
    (prefixes isIOS app = none → isAppInstalled isIOS probe app = false) ∧
    (∀ p, prefixes isIOS app = some p → probe p = ProbeOutcome.rejects →
      isAppInstalled isIOS probe app = false) ∧
    (∀ p v, prefixes isIOS app = some p → probe p = ProbeOutcome.resolves v →
      isAppInstalled isIOS probe app = truthy v) := by
  refine ⟨fun h => ?_, fun p hp hr => ?_, fun p v hp hr => ?_⟩
  · simp [isAppInstalled, h]
  · simp [isAppInstalled, hp, hr]
  · simp [isAppInstalled, hp, hr]

/-- Witness for C2 at the registered id `citymapper` with a probe that
rejects. -/
theorem isAppInstalled_never_rejects_witness :
    isAppInstalled true (fun _ => ProbeOutcome.rejects) "citymapper" = false :=
  (isAppInstalled_never_rejects true (fun _ => ProbeOutcome.rejects) "citymapper").2.1
    "citymapper://" rfl rfl

/-- C7: a valid request with `app: 'navigon'` resolves with no value and
no launch: the `switch` has no `navigon` case, so `url` stays `null`. -/
theorem showLocation_navigon_noop (isIOS : Bool) (lv lgv : JSValue) (t a : Option String)
    (probe : String → ProbeOutcome) (resp : UserChoice) :
    showLocation isIOS
      { latitude := some lv, longitude := some lgv, title := t.map .str,
        address := a.map .str, app := some (.str "navigon") } probe resp = .noop := by
  cases t <;> cases a <;>
    simp [showLocation, badStringField_str, badStringField_none, badAppField,
      jsIndexOf, strIndexOf, truthy, apps, normalizeOpt, normalizeField, formatUrl]

/-- When at least one coordinate is the NaN sentinel, every registered
provider other than `navigon` formats a URL, and that URL contains the
literal text `NaN`: every template renders its coordinates by string
concatenation through `jsNumToString`. -/
theorem formatUrl_nan_contains (isIOS : Bool) (ap : String) (lat lng : JSNumber)
    (t a : Option String) (hap : ap ∈ apps) (hnav : ap ≠ "navigon")
    (h : lat = JSNumber.nan ∨ lng = JSNumber.nan) :
    ∃ url, formatUrl isIOS (some ap) lat lng t a = some url ∧
      strContainsSub url "NaN" = true := by
  simp only [apps, List.mem_cons, List.not_mem_nil, or_false] at hap
  rcases hap with rfl | rfl | rfl | rfl | rfl | rfl | rfl | rfl | rfl | rfl <;>
  first
  | exact absurd rfl hnav
  | (rcases h with rfl | rfl <;> cases isIOS <;>
      exact ⟨_, rfl, by
        simp only [jsNumToString_nan, String.append_assoc]
        repeat first
          | decide
          | exact strContainsSub_head _ _
          | apply strContainsSub_skip⟩)

/-- C10: an input whose `latitude` or `longitude` holds a value that does
not parse as a number does not make `showLocation` fail, for any
registered explicit app and any optional string fields: no
`MapsException` is thrown, and for every app with a formatting rule
(every registered id but `navigon`) the launch is still attempted, with
a URL containing the literal text `NaN` in place of the coordinate. -/
theorem showLocation_nan_launch (isIOS : Bool) (lv lgv : JSValue) (t a : Option String)
    (ap : String) (probe : String → ProbeOutcome) (resp : UserChoice)
    (hap : ap ∈ apps)
    (h : parseFloat lv = JSNumber.nan ∨ parseFloat lgv = JSNumber.nan) :
    (∀ msg, showLocation isIOS
        { latitude := some lv, longitude := some lgv, title := t.map .str,
          address := a.map .str, app := some (.str ap) } probe resp ≠ .err msg) ∧
    (ap = "navigon" → showLocation isIOS
        { latitude := some lv, longitude := some lgv, title := t.map .str,
          address := a.map .str, app := some (.str ap) } probe resp = .noop) ∧
    (ap ≠ "navigon" → ∃ url,
      showLocation isIOS
        { latitude := some lv, longitude := some lgv, title := t.map .str,
          address := a.map .str, app := some (.str ap) } probe resp = .launch url ∧
      strContainsSub url "NaN" = true) := by
  have hne : ap ≠ "" := mem_apps_ne_empty ap hap
  have hbad : badAppField (some (.str ap)) = false := badAppField_registered hap
  have hnorm : normalizeOpt (some (.str ap)) = some ap := by
    simp [normalizeOpt, normalizeField, hne]
  have hred : showLocation isIOS
      { latitude := some lv, longitude := some lgv, title := t.map .str,
        address := a.map .str, app := some (.str ap) } probe resp =
      match formatUrl isIOS (some ap) (parseFloat lv) (parseFloat lgv)
        (normalizeOpt (t.map JSValue.str)) (normalizeOpt (a.map JSValue.str)) with
      | some url => ShowLocationResult.launch url
      | none => ShowLocationResult.noop := by
    cases t <;> cases a <;>
      simp [showLocation, badStringField_str, badStringField_none, hbad, hnorm,
        normalizeOpt, normalizeField, hne]
  refine ⟨fun msg => ?_, fun hn => ?_, fun hnav => ?_⟩
  · rw [hred]
    rcases hfu : formatUrl isIOS (some ap) (parseFloat lv) (parseFloat lgv)
        (normalizeOpt (t.map JSValue.str)) (normalizeOpt (a.map JSValue.str))
      with _ | u <;> simp
  · subst hn
    rw [hred]
    simp [formatUrl]
  · obtain ⟨url, hu, hc⟩ := formatUrl_nan_contains isIOS ap (parseFloat lv)
      (parseFloat lgv) (normalizeOpt (t.map JSValue.str))
      (normalizeOpt (a.map JSValue.str)) hap hnav h
    exact ⟨url, by rw [hred, hu], hc⟩

/-- Witness for C10 at `{latitude: 'oops', longitude: 2, app: 'citymapper'}`:
only the latitude fails to parse, and the launch carries `NaN`. -/
theorem showLocation_nan_launch_witness :
    ∃ url,
      showLocation false
        { latitude := some (.str "oops"), longitude := some (.number (.finite 2 0)),
          app := some (.str "citymapper") } (fun _ => ProbeOutcome.rejects) .dismiss =
        .launch url ∧ strContainsSub url "NaN" = true :=
  (showLocation_nan_launch false (.str "oops") (.number (.finite 2 0)) none none
    "citymapper" (fun _ => ProbeOutcome.rejects) .dismiss (by decide)
    (Or.inl (by decide))).2.2 (by decide)

/-- C3: with zero available providers `askAppChoice` resolves `null`, and
with exactly one it resolves that provider, in both cases without
presenting any UI — whatever the user-reaction parameter is, it is never
consulted. -/
theorem askAppChoice_zero_or_one_noUI (isIOS : Bool) (probe : String → ProbeOutcome)
    (resp : UserChoice) :
    (availableApps isIOS probe = [] →
      askAppChoice isIOS probe resp = .noUI none) ∧
    (∀ a, availableApps isIOS probe = [a] →
      askAppChoice isIOS probe resp = .noUI (some a)) := by
  constructor
  · intro h
    simp [askAppChoice, h, jsOrNull]
  · intro a h
    have ha : a ∈ prefixesKeys := by
      have hm : a ∈ availableApps isIOS probe := by
        rw [h]; exact List.mem_singleton_self a
      exact List.mem_of_mem_filter hm
    have hne : a ≠ "" := by
      have hall : ∀ x ∈ prefixesKeys, x ≠ "" := by decide
      exact hall a ha
    simp [askAppChoice, h, jsOrNull, hne]

/-- Witness for C3 with a probe under which only `waze` is available. -/
theorem askAppChoice_zero_or_one_noUI_witness :
    askAppChoice false (fun p => ProbeOutcome.resolves (.bool (p == "waze://")))
      .dismiss = .noUI (some "waze") :=
  (askAppChoice_zero_or_one_noUI false
    (fun p => ProbeOutcome.resolves (.bool (p == "waze://"))) .dismiss).2
    "waze" (by decide)

/-- C4: with at least two available providers, `askAppChoice` presents a
prompt whose options are the available providers' titles in registry
order plus a trailing Cancel; picking the Cancel index or dismissing
resolves `null`, and picking index `k < availableApps.length` resolves
the provider at position `k`. -/
theorem askAppChoice_multi_prompt (isIOS : Bool) (probe : String → ProbeOutcome)
    (h2 : 2 ≤ (availableApps isIOS probe).length) :
    (askAppChoice isIOS probe
        (.select (((availableApps isIOS probe).map (fun app => (titles app).getD "undefined")
          ++ ["Cancel"]).length - 1)) =
      .ui ((availableApps isIOS probe).map (fun app => (titles app).getD "undefined")
        ++ ["Cancel"]) none) ∧
    (askAppChoice isIOS probe .dismiss =
      .ui ((availableApps isIOS probe).map (fun app => (titles app).getD "undefined")
        ++ ["Cancel"]) none) ∧
    (∀ k, (hk : k < (availableApps isIOS probe).length) →
      askAppChoice isIOS probe (.select k) =
        .ui ((availableApps isIOS probe).map (fun app => (titles app).getD "undefined")
          ++ ["Cancel"]) (some ((availableApps isIOS probe).get ⟨k, hk⟩))) := by
  have hnot : ¬ (availableApps isIOS probe).length < 2 := Nat.not_lt.mpr h2
  refine ⟨?_, ?_, ?_⟩
  · cases isIOS <;> simp [askAppChoice, hnot]
  · cases isIOS <;> simp [askAppChoice, hnot]
  · intro k hk
    have hne : ¬ k = (availableApps isIOS probe).length := Nat.ne_of_lt hk
    cases isIOS <;>
      simp [askAppChoice, hnot, hne, List.getElem?_eq_getElem hk]

/-- Witness for C4 with every provider available and the pick at index 3
(`uber`). -/
theorem askAppChoice_multi_prompt_witness :
    askAppChoice true (fun _ => ProbeOutcome.resolves (.bool true)) (.select 3) =
      .ui ["Apple Maps", "Google Maps", "Citymapper", "Uber", "Lyft", "Navigon",
        "The Transit App", "Waze", "Yandex.Navi", "Moovit", "Cancel"]
        (some "uber") := by
  rw [(askAppChoice_multi_prompt true (fun _ => ProbeOutcome.resolves (.bool true))
    (by decide)).2.2 3 (by decide)]
  decide

/-- C6: for every valid `uber` request the URL is the uber template —
with no `=` after `dropoff[longitude]` — and the percent-encoded
`dropoff[nickname]` is appended exactly when a (non-empty) title is
present. -/
theorem showLocation_uber_url (isIOS : Bool) (lv lgv : JSValue) (t : Option String)
    (ht : ∀ s, t = some s → s ≠ "") (probe : String → ProbeOutcome)
    (resp : UserChoice) :
    showLocation isIOS
      { latitude := some lv, longitude := some lgv, title := t.map .str,
        app := some (.str "uber") } probe resp =
      .launch ("uber://?action=setPickup&pickup=my_location&dropoff[latitude]=" ++
        jsNumToString (parseFloat lv) ++ "&dropoff[longitude]" ++
        jsNumToString (parseFloat lgv) ++
        (match t with
         | some s => "&dropoff[nickname]=" ++ encodeURIComponent s
         | none => "")) := by
  cases t with
  | none =>
    simp [showLocation, badStringField_none, badAppField, jsIndexOf, strIndexOf,
      truthy, apps, normalizeOpt, normalizeField, formatUrl, prefixes]
  | some s =>
    have hs : ¬ s = "" := ht s rfl
    simp [showLocation, badStringField_str, badStringField_none, badAppField,
      jsIndexOf, strIndexOf, truthy, apps, normalizeOpt, normalizeField,
      formatUrl, prefixes, hs]

/-- Witness for C6 at `{latitude: 1, longitude: 2, title: 'Home'}`. -/
theorem showLocation_uber_url_witness :
    showLocation false
      { latitude := some (.number (.finite 1 0)), longitude := some (.number (.finite 2 0)),
        title := some (.str "Home"), app := some (.str "uber") }
      (fun _ => ProbeOutcome.rejects) .dismiss =
      .launch "uber://?action=setPickup&pickup=my_location&dropoff[latitude]=1&dropoff[longitude]2&dropoff[nickname]=Home" := by
  have h := showLocation_uber_url false (.number (.finite 1 0)) (.number (.finite 2 0))
    (some "Home") (fun s hs => by cases hs; decide)
    (fun _ => ProbeOutcome.rejects) .dismiss
  exact h.trans (by decide)

/-- C9: a `title` (or `address`) key holding a falsy non-string value
(0, false, null, …) passes validation — the type check fires only on
truthy values — and the field normalizes to `null` before formatting, so
the call behaves exactly as if that one key were absent, whatever the
rest of the options object holds. -/
theorem showLocation_falsy_optional_fields (isIOS : Bool) (o : Options) (v : JSValue)
    (probe : String → ProbeOutcome) (resp : UserChoice) (hv : truthy v = false) :
    badStringField (some v) = false ∧ normalizeOpt (some v) = none ∧
    (showLocation isIOS { o with title := some v } probe resp =
      showLocation isIOS { o with title := none } probe resp) ∧
    (showLocation isIOS { o with address := some v } probe resp =
      showLocation isIOS { o with address := none } probe resp) := by
  have hb : badStringField (some v) = false := badStringField_of_falsy hv
  have hn : normalizeOpt (some v) = none := by
    simpa [normalizeOpt] using normalizeField_of_falsy hv
  obtain ⟨lat, lng, ttl, addr, ap⟩ := o
  refine ⟨hb, hn, ?_, ?_⟩ <;>
    simp only [showLocation, hb, hn, badStringField_none, normalizeOpt_none]

/-- Witness for C9 at `{latitude: 1, longitude: 2, title: 0, app:
'citymapper'}` with no address key: the URL carries no `endname`,
exactly as with the title key absent. -/
theorem showLocation_falsy_optional_fields_witness :
    showLocation true
      { latitude := some (.number (.finite 1 0)), longitude := some (.number (.finite 2 0)),
        title := some (.number (.finite 0 0)), app := some (.str "citymapper") }
      (fun _ => ProbeOutcome.rejects) .dismiss =
      .launch "citymapper://directions?endcoord=1,2" := by
  rw [(showLocation_falsy_optional_fields true
    { latitude := some (.number (.finite 1 0)), longitude := some (.number (.finite 2 0)),
      app := some (.str "citymapper") } (.number (.finite 0 0))
    (fun _ => ProbeOutcome.rejects) .dismiss (by decide)).2.2.1]
  decide

/-- C1: an options object whose `app` key holds a truthy value that is no
registered provider id makes `showLocation` throw a `MapsException`
synchronously: the thrown message does not depend on the injected probe
or prompt reaction, which are never consulted. -/
theorem showLocation_invalid_app_err (isIOS : Bool) (o : Options) (v : JSValue)
    (hv : o.app = some v) (htr : truthy v = true)
    (hreg : ∀ s, v = JSValue.str s → s ∉ apps) :
    ∃ msg, ∀ probe resp, showLocation isIOS o probe resp = .err msg := by
  have hbad : badAppField o.app = true := by
    rw [hv]; exact badAppField_of_unregistered htr hreg
  by_cases h1 : o.latitude = none ∨ o.longitude = none
  · exact ⟨msgMissingLatLng, fun probe resp => by
      simp only [showLocation]; rw [if_pos h1]⟩
  · by_cases h2 : badStringField o.address = true
    · exact ⟨msgBadAddress, fun probe resp => by
        simp only [showLocation]; rw [if_neg h1, if_pos h2]⟩
    · by_cases h3 : badStringField o.title = true
      · exact ⟨msgBadTitle, fun probe resp => by
          simp only [showLocation]; rw [if_neg h1, if_neg h2, if_pos h3]⟩
      · exact ⟨msgBadApp, fun probe resp => by
          simp only [showLocation]; rw [if_neg h1, if_neg h2, if_neg h3, if_pos hbad]⟩

/-- Witness for C1 at `{app: 'bogus-app', latitude: 1, longitude: 2}`. -/
theorem showLocation_invalid_app_err_witness :
    ∃ msg, ∀ probe resp,
      showLocation true
        { latitude := some (.number (.finite 1 0)), longitude := some (.number (.finite 2 0)),
          app := some (.str "bogus-app") } probe resp = .err msg :=
  showLocation_invalid_app_err true
    { latitude := some (.number (.finite 1 0)), longitude := some (.number (.finite 2 0)),
      app := some (.str "bogus-app") } (.str "bogus-app") rfl (by decide)
    (fun s hs => by cases hs; decide)

/-- C8 counterexample: querying the registry with the unregistered id
`bogus-app` does not fail — the source defines no `InvalidProviderError`
at all.  The lookups return the ordinary absent value (JS `undefined`,
here `none`), and `isAppInstalled` resolves `false` for such an id even
under a probe that would resolve `true`. -/
theorem registry_unregistered_no_error :
    prefixes true "bogus-app" = none ∧ prefixes false "bogus-app" = none ∧
    titles "bogus-app" = none ∧
    isAppInstalled true (fun _ => ProbeOutcome.resolves (.bool true)) "bogus-app"
      = false := by
  exact ⟨rfl, rfl, rfl, rfl⟩

/-- C8 amended: for every registered ProviderId the registry's prefix and
title lookups return non-empty strings; querying with an id outside the
ten-member set yields the absent value (`undefined`) from both tables,
with no error raised. -/
theorem registry_lookup_amended (isIOS : Bool) (app : String) :
    (app ∈ apps → ∃ p t, prefixes isIOS app = some p ∧ p ≠ "" ∧
      titles app = some t ∧ t ≠ "") ∧
    (app ∉ apps → prefixes isIOS app = none ∧ titles app = none) := by
  constructor
  · intro h
    simp only [apps, List.mem_cons, List.not_mem_nil, or_false] at h
    rcases h with rfl | rfl | rfl | rfl | rfl | rfl | rfl | rfl | rfl | rfl <;>
      cases isIOS <;> exact ⟨_, _, rfl, by decide, rfl, by decide⟩
  · intro h
    simp only [apps, List.mem_cons, List.not_mem_nil, or_false, not_or] at h
    obtain ⟨h1, h2, h3, h4, h5, h6, h7, h8, h9, h10⟩ := h
    constructor
    · simp [prefixes, h1, h2, h3, h4, h5, h6, h7, h8, h9, h10]
    · simp [titles, h1, h2, h3, h4, h5, h6, h7, h8, h9, h10]

/-- Witness for the amended C8 at the registered `waze` and the
unregistered `bogus-app`. -/
theorem registry_lookup_amended_witness :
    (∃ p t, prefixes true "waze" = some p ∧ p ≠ "" ∧
      titles "waze" = some t ∧ t ≠ "") ∧
    (prefixes true "bogus-app" = none ∧ titles "bogus-app" = none) :=
  ⟨(registry_lookup_amended true "waze").1 (by decide),
   (registry_lookup_amended true "bogus-app").2 (by decide)⟩

end MapLink
